import Mathlib

/-!
Verification of the exploded-view window-assembly animation.

The development shallowly embeds, over exact rationals:
* the per-part interpolator of `src/components/AnimatedPart.tsx`
  (windowed clamp, cubic ease-in-out, `lerpVectors`);
* the timeline controller of the application root (`handleSeek`,
  `handleReset`, `handlePlayPause` and the `animate` frame callback,
  modelled as `tick` over the elapsed seconds);
* the parametric part-layout generator of `WindowScene`, including its
  find-and-overwrite correction pass over the yellow insulation panels.

JavaScript numbers are embedded as `ℚ`; every constant in the source is an
exact decimal, so rational arithmetic reproduces the source computations
exactly.
-/

/-- A 3-component vector, standing for a three.js `Vector3` (and for the
3-tuples used for `args`, `assembledPos`, `explodedPos`). -/
structure Vec3 where
  x : ℚ
  y : ℚ
  z : ℚ
deriving DecidableEq, Repr

/-- `MathUtils.clamp(value, lo, hi) = Math.max(lo, Math.min(hi, value))`. -/
def clamp (value lo hi : ℚ) : ℚ := max lo (min value hi)

/-- three.js `Vector3.lerpVectors(v1, v2, alpha)`:
componentwise `v1 + (v2 - v1) * alpha`. -/
def lerpVectors (v1 v2 : Vec3) (alpha : ℚ) : Vec3 :=
  ⟨v1.x + (v2.x - v1.x) * alpha,
   v1.y + (v2.y - v1.y) * alpha,
   v1.z + (v2.z - v1.z) * alpha⟩

/-- The cubic ease-in-out curve of `AnimatedPart`:
`localP < 0.5 ? 4*localP^3 : 1 - ((-2*localP + 2)^3)/2`. -/
def easeInOutCubic (localP : ℚ) : ℚ :=
  if localP < 0.5 then 4 * localP * localP * localP
  else 1 - (-2 * localP + 2) ^ 3 / 2

/-- `PartConfig` from `src/types.ts`: one rigid rectangular part. -/
structure PartConfig where
  id : String
  name : String
  type : String := "box"
  color : String
  args : Vec3
  assembledPos : Vec3
  explodedPos : Vec3
  delay : ℚ
  duration : ℚ
  rotation : Option Vec3 := none
  opacity : Option ℚ := none
  metalness : Option ℚ := none
  roughness : Option ℚ := none
deriving DecidableEq, Repr

/-- The per-frame position computation of `AnimatedPart`'s `useFrame`
callback: local progress from the part's window (`delay`, `duration`),
clamped to [0,1], eased, then linearly interpolated from `explodedPos`
toward `assembledPos`. -/
def interpolate (config : PartConfig) (globalP : ℚ) : Vec3 :=
  lerpVectors config.explodedPos config.assembledPos
    (easeInOutCubic (clamp ((globalP - config.delay) / config.duration) 0 1))

/-- The application root's animation state: `isPlaying`, the internal
`progressRef` (0-1), the UI slider value `uiProgress` (0-100) and the speed
multiplier. -/
structure AnimState where
  isPlaying : Bool
  progress : ℚ
  uiProgress : ℚ
  speed : ℚ
deriving DecidableEq, Repr

/-- Initial state of the application root: paused, progress 0, speed 0.8. -/
def initState : AnimState :=
  { isPlaying := false, progress := 0, uiProgress := 0, speed := 0.8 }

/-- `handleSeek(val)`: stop playing, write the slider value and the
normalized progress `val / 100` (the source applies no clamping here). -/
def handleSeek (s : AnimState) (val : ℚ) : AnimState :=
  { s with isPlaying := false, uiProgress := val, progress := val / 100 }

/-- `handleReset()`: stop playing and rewind to 0. -/
def handleReset (s : AnimState) : AnimState :=
  { s with isPlaying := false, uiProgress := 0, progress := 0 }

/-- `handlePlayPause()`: if paused at (or past) the end, rewind to 0 first;
then toggle the playing flag. -/
def handlePlayPause (s : AnimState) : AnimState :=
  if s.isPlaying = false ∧ 1 ≤ s.progress then
    { s with progress := 0, uiProgress := 0, isPlaying := !s.isPlaying }
  else
    { s with isPlaying := !s.isPlaying }

/-- One pass of the `animate` frame callback with a known previous
timestamp, given the elapsed seconds `deltaTime`: the increment is
`deltaTime * speed / 3`; while below 1 the progress advances (capped at 1),
and once at (or past) 1 the callback pins progress to 1 and stops playing. -/
def tick (s : AnimState) (deltaTime : ℚ) : AnimState :=
  if s.progress < 1 then
    { s with progress := min (s.progress + deltaTime * s.speed / 3) 1,
             uiProgress := min (s.progress + deltaTime * s.speed / 3) 1 * 100 }
  else
    { s with isPlaying := false, progress := 1, uiProgress := 100 }

/-- A sequence of `tick`s, one elapsed time per frame. -/
def runTicks (s : AnimState) : List ℚ → AnimState
  | [] => s
  | e :: es => runTicks (tick s e) es

/-! ## The part layout generator (`WindowScene`) -/

def BoxW : ℚ := 2.8
def BoxH : ℚ := 1.9
def Depth : ℚ := 0.8
def BeamSize : ℚ := 0.14
def ExplodeZ : ℚ := 5.0
def ExplodeXY : ℚ := 2.5

def railH : ℚ := BoxH + 0.6
def railX : ℚ := BoxW / 2 - BeamSize / 2
def beamLen : ℚ := Depth
def beamZ : ℚ := Depth / 2
def beamY_Top : ℚ := BoxH / 2 - BeamSize / 2
def beamY_Bot : ℚ := -(BoxH / 2 - BeamSize / 2)
def beamX_Left : ℚ := -(BoxW / 2 - BeamSize / 2)
def beamX_Right : ℚ := BoxW / 2 - BeamSize / 2
def innerW : ℚ := BoxW - BeamSize * 2
def innerH : ℚ := BoxH - BeamSize * 2
def cladThick : ℚ := 0.03
def winFrameThick : ℚ := 0.12
def winFrameDepth : ℚ := 0.15
def winZ : ℚ := 0.3
def winW : ℚ := innerW - 0.1
def winH : ℚ := innerH - 0.1

/-- The list of parts as first pushed by `WindowScene`, before the
find-and-overwrite correction pass on the yellow panels. -/
def partsInit : List PartConfig :=
  [{ id := "rail-left", name := "Wall Rail Left", color := "#71717a",
     args := ⟨BeamSize, railH, 0.1⟩,
     assembledPos := ⟨-railX, 0, 0⟩, explodedPos := ⟨-railX, 0, 0⟩,
     delay := 0, duration := 0.1 },
   { id := "rail-right", name := "Wall Rail Right", color := "#71717a",
     args := ⟨BeamSize, railH, 0.1⟩,
     assembledPos := ⟨railX, 0, 0⟩, explodedPos := ⟨railX, 0, 0⟩,
     delay := 0, duration := 0.1 },
   { id := "beam-tl", name := "Steel Beam", color := "#71717a",
     args := ⟨BeamSize, BeamSize, beamLen⟩,
     assembledPos := ⟨beamX_Left, beamY_Top, beamZ⟩,
     explodedPos := ⟨beamX_Left, beamY_Top, ExplodeZ * 0.2⟩,
     delay := 0.1, duration := 0.4 },
   { id := "beam-tr", name := "Steel Beam", color := "#71717a",
     args := ⟨BeamSize, BeamSize, beamLen⟩,
     assembledPos := ⟨beamX_Right, beamY_Top, beamZ⟩,
     explodedPos := ⟨beamX_Right, beamY_Top, ExplodeZ * 0.2⟩,
     delay := 0.1, duration := 0.4 },
   { id := "beam-bl", name := "Steel Beam", color := "#71717a",
     args := ⟨BeamSize, BeamSize, beamLen⟩,
     assembledPos := ⟨beamX_Left, beamY_Bot, beamZ⟩,
     explodedPos := ⟨beamX_Left, beamY_Bot, ExplodeZ * 0.2⟩,
     delay := 0.1, duration := 0.4 },
   { id := "beam-br", name := "Steel Beam", color := "#71717a",
     args := ⟨BeamSize, BeamSize, beamLen⟩,
     assembledPos := ⟨beamX_Right, beamY_Bot, beamZ⟩,
     explodedPos := ⟨beamX_Right, beamY_Bot, ExplodeZ * 0.2⟩,
     delay := 0.1, duration := 0.4 },
   { id := "yellow-top", name := "Insulation Top", color := "#fde047",
     args := ⟨innerW, BeamSize, Depth⟩,
     assembledPos := ⟨0, beamY_Top, beamZ⟩,
     explodedPos := ⟨0, beamY_Top + ExplodeXY / 2, ExplodeZ * 0.5⟩,
     delay := 0.3, duration := 0.5 },
   { id := "yellow-bot", name := "Insulation Sill", color := "#fde047",
     args := ⟨innerW, BeamSize, Depth⟩,
     assembledPos := ⟨0, beamY_Bot, beamZ⟩,
     explodedPos := ⟨0, beamY_Bot - ExplodeXY / 2, ExplodeZ * 0.5⟩,
     delay := 0.3, duration := 0.5 },
   { id := "yellow-left", name := "Insulation Left", color := "#fde047",
     args := ⟨BeamSize, innerH, Depth⟩,
     assembledPos := ⟨beamX_Left, 0, beamZ⟩,
     explodedPos := ⟨beamX_Left - ExplodeXY / 2, 0, ExplodeZ * 0.5⟩,
     delay := 0.35, duration := 0.5 },
   { id := "yellow-right", name := "Insulation Right", color := "#fde047",
     args := ⟨BeamSize, innerH, Depth⟩,
     assembledPos := ⟨beamX_Right, 0, beamZ⟩,
     explodedPos := ⟨beamX_Right + ExplodeXY / 2, 0, ExplodeZ * 0.5⟩,
     delay := 0.35, duration := 0.5 },
   { id := "clad-top", name := "Cladding Top", color := "#18181b",
     args := ⟨BoxW, cladThick, Depth⟩,
     assembledPos := ⟨0, beamY_Top + BeamSize / 2 + cladThick / 2, beamZ⟩,
     explodedPos := ⟨0, beamY_Top + ExplodeXY, ExplodeZ⟩,
     delay := 0.6, duration := 0.4 },
   { id := "clad-bot", name := "Cladding Bot", color := "#18181b",
     args := ⟨BoxW, cladThick, Depth⟩,
     assembledPos := ⟨0, beamY_Bot - BeamSize / 2 - cladThick / 2, beamZ⟩,
     explodedPos := ⟨0, beamY_Bot - ExplodeXY, ExplodeZ⟩,
     delay := 0.6, duration := 0.4 },
   { id := "clad-left", name := "Cladding Left", color := "#18181b",
     args := ⟨cladThick, BoxH + 0.1, Depth⟩,
     assembledPos := ⟨beamX_Left - BeamSize / 2 - cladThick / 2, 0, beamZ⟩,
     explodedPos := ⟨beamX_Left - ExplodeXY, 0, ExplodeZ⟩,
     delay := 0.65, duration := 0.4 },
   { id := "clad-right", name := "Cladding Right", color := "#18181b",
     args := ⟨cladThick, BoxH + 0.1, Depth⟩,
     assembledPos := ⟨beamX_Right + BeamSize / 2 + cladThick / 2, 0, beamZ⟩,
     explodedPos := ⟨beamX_Right + ExplodeXY, 0, ExplodeZ⟩,
     delay := 0.65, duration := 0.4 },
   { id := "win-top", name := "Window Top", color := "#9a3412",
     args := ⟨winW, winFrameThick, winFrameDepth⟩,
     assembledPos := ⟨0, winH / 2 - winFrameThick / 2, winZ⟩,
     explodedPos := ⟨0, winH / 2, ExplodeZ * 0.8⟩,
     delay := 0.45, duration := 0.5 },
   { id := "win-bot", name := "Window Bot", color := "#9a3412",
     args := ⟨winW, winFrameThick, winFrameDepth⟩,
     assembledPos := ⟨0, -(winH / 2 - winFrameThick / 2), winZ⟩,
     explodedPos := ⟨0, -winH / 2, ExplodeZ * 0.8⟩,
     delay := 0.45, duration := 0.5 },
   { id := "win-left", name := "Window Left", color := "#9a3412",
     args := ⟨winFrameThick, winH - 2 * winFrameThick, winFrameDepth⟩,
     assembledPos := ⟨-(winW / 2 - winFrameThick / 2), 0, winZ⟩,
     explodedPos := ⟨-winW / 2, 0, ExplodeZ * 0.8⟩,
     delay := 0.5, duration := 0.5 },
   { id := "win-right", name := "Window Right", color := "#9a3412",
     args := ⟨winFrameThick, winH - 2 * winFrameThick, winFrameDepth⟩,
     assembledPos := ⟨winW / 2 - winFrameThick / 2, 0, winZ⟩,
     explodedPos := ⟨winW / 2, 0, ExplodeZ * 0.8⟩,
     delay := 0.5, duration := 0.5 },
   { id := "glass", name := "Glass", color := "#a5f3fc",
     args := ⟨winW - 2 * winFrameThick + 0.05, winH - 2 * winFrameThick + 0.05, 0.02⟩,
     assembledPos := ⟨0, 0, winZ⟩,
     explodedPos := ⟨0, 0, ExplodeZ * 0.9⟩,
     delay := 0.55, duration := 0.5,
     opacity := some 0.3, metalness := some 0.9, roughness := some 0.05 }]

/-- `list.find(p => p.id === pid)!.<field> = v`: rewrite the first part with
the given id (ids are unique, so this is the in-place mutation of the
source). -/
def setFirst (l : List PartConfig) (pid : String) (f : PartConfig → PartConfig) :
    List PartConfig :=
  match l with
  | [] => []
  | c :: rest => if c.id == pid then f c :: rest else c :: setFirst rest pid f

/-- The final part list: the initial pushes followed by the source's
find-and-overwrite corrections, applied in source order. -/
def parts : List PartConfig :=
  let l1 := setFirst partsInit "yellow-top"
    (fun p => { p with args := ⟨innerW, 0.05, Depth⟩ })
  let l2 := setFirst l1 "yellow-top"
    (fun p => { p with assembledPos := ⟨0, beamY_Top - BeamSize / 2 + 0.025, beamZ⟩ })
  let l3 := setFirst l2 "yellow-bot"
    (fun p => { p with args := ⟨innerW, 0.15, Depth⟩ })
  let l4 := setFirst l3 "yellow-bot"
    (fun p => { p with assembledPos := ⟨0, beamY_Bot + BeamSize / 2 - 0.075 + 0.15, beamZ⟩ })
  let l5 := setFirst l4 "yellow-bot"
    (fun p => { p with assembledPos := ⟨0, beamY_Bot, beamZ⟩ })
  let l6 := setFirst l5 "yellow-bot"
    (fun p => { p with args := ⟨innerW, BeamSize, Depth⟩ })
  let l7 := setFirst l6 "yellow-left"
    (fun p => { p with args := ⟨0.05, innerH, Depth⟩ })
  let l8 := setFirst l7 "yellow-left"
    (fun p => { p with assembledPos := ⟨beamX_Left + BeamSize / 2 - 0.025, 0, beamZ⟩ })
  let l9 := setFirst l8 "yellow-right"
    (fun p => { p with args := ⟨0.05, innerH, Depth⟩ })
  setFirst l9 "yellow-right"
    (fun p => { p with assembledPos := ⟨beamX_Right - BeamSize / 2 + 0.025, 0, beamZ⟩ })

/-- Look a part up by id in the generated layout. -/
def partById (pid : String) : Option PartConfig :=
  parts.find? (fun p => p.id == pid)

/-- `c` lies in the closed interval spanned by `a` and `b` (in either
order). -/
def between (a b c : ℚ) : Prop := min a b ≤ c ∧ c ≤ max a b

instance (a b c : ℚ) : Decidable (between a b c) := by
  unfold between; infer_instance

/-- Fallback part for total lookup (never returned for the ids used below,
whose presence in the layout is asserted separately). -/
def defaultPart : PartConfig :=
  { id := "", name := "", color := "", args := ⟨0, 0, 0⟩, assembledPos := ⟨0, 0, 0⟩,
    explodedPos := ⟨0, 0, 0⟩, delay := 0, duration := 1 }

/-- Total lookup of a part of the generated layout by id. -/
def getPart (pid : String) : PartConfig := (partById pid).getD defaultPart

/-- A part shaped like the glass pane: its animation window `[0.55, 1.05]`
overruns the end of the timeline, and its motion is along z from 4.5 down
to 0.3. -/
def overrunPart : PartConfig :=
  { id := "overrun", name := "Overrun", color := "#a5f3fc",
    args := ⟨1, 1, 1⟩, assembledPos := ⟨0, 0, 0.3⟩, explodedPos := ⟨0, 0, 4.5⟩,
    delay := 0.55, duration := 0.5 }

/-- A part whose animation window `[0, 0.5]` covers both timeline
endpoints' pins: `startOffset = 0` and `startOffset + span ≤ 1`. -/
def coveredPart : PartConfig :=
  { id := "covered", name := "Covered", color := "#ffffff",
    args := ⟨1, 1, 1⟩, assembledPos := ⟨1, 2, 3⟩, explodedPos := ⟨4, 5, 6⟩,
    delay := 0, duration := 0.5 }

@[ext] lemma Vec3.ext {a b : Vec3} (hx : a.x = b.x) (hy : a.y = b.y) (hz : a.z = b.z) :
    a = b := by
  cases a; cases b; cases hx; cases hy; cases hz; rfl

/-! ## Helper lemmas about `clamp` -/

lemma clamp_nonneg (v : ℚ) : 0 ≤ clamp v 0 1 := le_max_left _ _

lemma clamp_le_one (v : ℚ) : clamp v 0 1 ≤ 1 :=
  max_le (by norm_num) (min_le_right _ _)

lemma clamp_mono {a b : ℚ} (h : a ≤ b) : clamp a 0 1 ≤ clamp b 0 1 :=
  max_le_max le_rfl (min_le_min h le_rfl)

/-! ## Helper lemmas about the easing curve -/

lemma cube_mono {x y : ℚ} (hx : 0 ≤ x) (hxy : x ≤ y) : x ^ 3 ≤ y ^ 3 := by
  have hy : 0 ≤ y := hx.trans hxy
  have key : 0 ≤ (y - x) * (y * y + x * y + x * x) :=
    mul_nonneg (sub_nonneg.2 hxy)
      (by nlinarith [mul_nonneg hx hy, mul_nonneg hx hx, mul_nonneg hy hy])
  nlinarith [key]

lemma easeInOutCubic_nonneg {x : ℚ} (hx : 0 ≤ x) : 0 ≤ easeInOutCubic x := by
  unfold easeInOutCubic
  rcases lt_or_le x 0.5 with h | h
  · rw [if_pos h]
    nlinarith [mul_nonneg (mul_nonneg hx hx) hx]
  · rw [if_neg (not_lt.2 h)]
    rcases le_total x 1 with h1 | h1
    · have hb : 0 ≤ -2 * x + 2 := by linarith
      have hle : -2 * x + 2 ≤ 1 := by nlinarith [h]
      have := cube_mono hb hle
      nlinarith
    · have hb : -2 * x + 2 ≤ 0 := by linarith
      nlinarith [sq_nonneg (-2 * x + 2), mul_nonpos_of_nonpos_of_nonneg hb (sq_nonneg (-2 * x + 2))]

lemma easeInOutCubic_le_one {x : ℚ} (hx : x ≤ 1) : easeInOutCubic x ≤ 1 := by
  unfold easeInOutCubic
  rcases lt_or_le x 0.5 with h | h
  · rw [if_pos h]
    rcases le_total x 0 with h0 | h0
    · nlinarith [mul_nonpos_of_nonpos_of_nonneg h0 (mul_self_nonneg x)]
    · have := cube_mono h0 (le_of_lt h)
      nlinarith
  · rw [if_neg (not_lt.2 h)]
    have hb : 0 ≤ -2 * x + 2 := by linarith
    nlinarith [mul_nonneg (mul_nonneg hb hb) hb]

lemma easeInOutCubic_lt_one {x : ℚ} (h0 : 0 ≤ x) (h1 : x < 1) : easeInOutCubic x < 1 := by
  unfold easeInOutCubic
  rcases lt_or_le x 0.5 with h | h
  · rw [if_pos h]
    have := cube_mono h0 (le_of_lt h)
    nlinarith
  · rw [if_neg (not_lt.2 h)]
    have hb : 0 < -2 * x + 2 := by linarith
    nlinarith [mul_pos (mul_pos hb hb) hb]

lemma easeInOutCubic_mono {x y : ℚ} (hx : 0 ≤ x) (hxy : x ≤ y) (hy : y ≤ 1) :
    easeInOutCubic x ≤ easeInOutCubic y := by
  unfold easeInOutCubic
  rcases lt_or_le x 0.5 with h1 | h1 <;> rcases lt_or_le y 0.5 with h2 | h2
  · rw [if_pos h1, if_pos h2]
    nlinarith [cube_mono hx hxy]
  · rw [if_pos h1, if_neg (not_lt.2 h2)]
    have hcx := cube_mono hx (le_of_lt h1)
    have hb : 0 ≤ -2 * y + 2 := by linarith
    have hble : -2 * y + 2 ≤ 1 := by nlinarith [h2]
    have hcy := cube_mono hb hble
    nlinarith
  · linarith
  · rw [if_neg (not_lt.2 h1), if_neg (not_lt.2 h2)]
    have hb : 0 ≤ -2 * y + 2 := by linarith
    have hle : -2 * y + 2 ≤ -2 * x + 2 := by linarith
    have := cube_mono hb hle
    nlinarith

/-! ## Helper lemmas about linear interpolation -/

lemma lerp_mono_between {e a t1 t2 : ℚ} (h12 : t1 ≤ t2) (h2 : t2 ≤ 1) :
    between (e + (a - e) * t1) a (e + (a - e) * t2) := by
  rcases le_total e a with h | h
  · refine ⟨le_trans (min_le_left _ _) ?_, le_trans ?_ (le_max_right _ _)⟩
    · nlinarith [mul_le_mul_of_nonneg_left h12 (sub_nonneg.2 h)]
    · nlinarith [mul_le_mul_of_nonneg_left h2 (sub_nonneg.2 h)]
  · refine ⟨le_trans (min_le_right _ _) ?_, le_trans ?_ (le_max_left _ _)⟩
    · nlinarith [mul_le_mul_of_nonpos_left h2 (sub_nonpos.2 h)]
    · nlinarith [mul_le_mul_of_nonpos_left h12 (sub_nonpos.2 h)]

lemma lerp_within {e a t : ℚ} (h0 : 0 ≤ t) (h1 : t ≤ 1) :
    between e a (e + (a - e) * t) := by
  rcases le_total e a with h | h
  · refine ⟨le_trans (min_le_left _ _) ?_, le_trans ?_ (le_max_right _ _)⟩
    · nlinarith [mul_le_mul_of_nonneg_left h0 (sub_nonneg.2 h)]
    · nlinarith [mul_le_mul_of_nonneg_left h1 (sub_nonneg.2 h)]
  · refine ⟨le_trans (min_le_right _ _) ?_, le_trans ?_ (le_max_left _ _)⟩
    · nlinarith [mul_le_mul_of_nonpos_left h1 (sub_nonpos.2 h)]
    · nlinarith [mul_le_mul_of_nonpos_left h0 (sub_nonpos.2 h)]

/-! ## Helper lemmas about the timeline controller -/

lemma tick_speed (s : AnimState) (e : ℚ) : (tick s e).speed = s.speed := by
  unfold tick; split <;> rfl

lemma tick_progress_le_one (s : AnimState) (e : ℚ) : (tick s e).progress ≤ 1 := by
  unfold tick; split
  · exact min_le_right _ _
  · exact le_refl 1

lemma tick_progress_nonneg (s : AnimState) (e : ℚ) (he : 0 ≤ e) (hsp : 0 ≤ s.speed)
    (h0 : 0 ≤ s.progress) : 0 ≤ (tick s e).progress := by
  unfold tick; split
  · exact le_min (add_nonneg h0 (div_nonneg (mul_nonneg he hsp) (by norm_num))) zero_le_one
  · exact zero_le_one

lemma tick_progress_mono (s : AnimState) (e : ℚ) (he : 0 ≤ e) (hsp : 0 ≤ s.speed)
    (h1 : s.progress ≤ 1) : s.progress ≤ (tick s e).progress := by
  unfold tick; split
  · exact le_min (le_add_of_nonneg_right (div_nonneg (mul_nonneg he hsp) (by norm_num))) h1
  · exact h1

lemma tick_at_one (s : AnimState) (e : ℚ) (h : s.progress = 1) :
    (tick s e).progress = 1 ∧ (tick s e).isPlaying = false := by
  unfold tick
  rw [if_neg (by rw [h]; exact lt_irrefl 1)]
  exact ⟨rfl, rfl⟩

lemma runTicks_at_one (es : List ℚ) : ∀ s : AnimState, s.progress = 1 →
    (runTicks s es).progress = 1 ∧ (es ≠ [] → (runTicks s es).isPlaying = false) := by
  induction es with
  | nil => exact fun s h => ⟨h, fun hne => absurd rfl hne⟩
  | cons e es ih =>
    intro s h
    have h1 := tick_at_one s e h
    have h2 := ih (tick s e) h1.1
    refine ⟨h2.1, fun _ => ?_⟩
    cases es with
    | nil => exact h1.2
    | cons f fs => exact h2.2 (by simp)

lemma runTicks_bounds (es : List ℚ) : ∀ s : AnimState, (∀ e ∈ es, 0 ≤ e) →
    0 ≤ s.speed → 0 ≤ s.progress → s.progress ≤ 1 →
    s.progress ≤ (runTicks s es).progress ∧ 0 ≤ (runTicks s es).progress ∧
      (runTicks s es).progress ≤ 1 := by
  induction es with
  | nil => exact fun s _ _ h0 h1 => ⟨le_refl _, h0, h1⟩
  | cons e es ih =>
    intro s hes hsp h0 h1
    have he : 0 ≤ e := hes e (List.mem_cons_self _ _)
    have hrest : ∀ x ∈ es, 0 ≤ x := fun x hx => hes x (List.mem_cons_of_mem _ hx)
    have hsp2 : 0 ≤ (tick s e).speed := by rw [tick_speed]; exact hsp
    have h0t := tick_progress_nonneg s e he hsp h0
    have h1t := tick_progress_le_one s e
    have hmono := tick_progress_mono s e he hsp h1
    have hrec := ih (tick s e) hrest hsp2 h0t h1t
    exact ⟨le_trans hmono hrec.1, hrec.2.1, hrec.2.2⟩

/-! ## Claim theorems -/

/-- C7: the cubic ease-in-out curve satisfies `easedT(0.5) = 0.5` and the
point symmetry `easedT(x) + easedT(1 - x) = 1` for every `x` in `[0,1]`. -/
theorem easing_symmetry (x : ℚ) (h0 : 0 ≤ x) (h1 : x ≤ 1) :
    easeInOutCubic 0.5 = 0.5 ∧ easeInOutCubic x + easeInOutCubic (1 - x) = 1 := by
  refine ⟨by norm_num [easeInOutCubic], ?_⟩
  unfold easeInOutCubic
  rcases lt_trichotomy x 0.5 with h | h | h
  · rw [if_pos h, if_neg (not_lt.2 (by nlinarith [h]))]
    ring
  · rw [if_neg (not_lt.2 (le_of_eq h.symm)), if_neg (not_lt.2 (by nlinarith [h]))]
    rw [h]
    norm_num
  · rw [if_neg (not_lt.2 (le_of_lt h)), if_pos (by nlinarith [h])]
    ring

/-- C7 witness: the symmetry at the concrete input `x = 0.25`. -/
theorem easing_symmetry_witness :
    easeInOutCubic 0.5 = 0.5 ∧ easeInOutCubic 0.25 + easeInOutCubic (1 - 0.25) = 1 :=
  easing_symmetry 0.25 (by norm_num) (by norm_num)

/-- C9: `playPause` invoked while not playing with `progress ≥ 1` first
rewinds `progress` to 0 and enters Playing; invoked with `progress < 1` it
only toggles the playing flag and leaves `progress` unchanged. -/
theorem playPause_auto_rewind (s : AnimState) :
    (s.isPlaying = false → 1 ≤ s.progress →
      (handlePlayPause s).progress = 0 ∧ (handlePlayPause s).isPlaying = true) ∧
    (s.progress < 1 →
      (handlePlayPause s).isPlaying = !s.isPlaying ∧
      (handlePlayPause s).progress = s.progress) := by
  constructor
  · intro hp h1
    unfold handlePlayPause
    rw [if_pos ⟨hp, h1⟩]
    exact ⟨rfl, by rw [hp]; rfl⟩
  · intro h1
    unfold handlePlayPause
    rw [if_neg (by rintro ⟨-, h⟩; linarith)]
    exact ⟨rfl, rfl⟩

/-- C9 witness: the rewind branch at a completed paused state, and the pure
toggle branch at a mid-animation state. -/
theorem playPause_auto_rewind_witness :
    ((handlePlayPause { isPlaying := false, progress := 1, uiProgress := 100, speed := 1 }).progress = 0 ∧
     (handlePlayPause { isPlaying := false, progress := 1, uiProgress := 100, speed := 1 }).isPlaying = true) ∧
    ((handlePlayPause { isPlaying := true, progress := 0.5, uiProgress := 50, speed := 1 }).isPlaying = false ∧
     (handlePlayPause { isPlaying := true, progress := 0.5, uiProgress := 50, speed := 1 }).progress = 0.5) := by
  constructor
  · exact (playPause_auto_rewind _).1 rfl (by norm_num)
  · exact (playPause_auto_rewind _).2 (by norm_num)


/-- C8 counterexample: a tick with negative elapsed time (-3 s, speed 1)
from progress 0.5 moves progress to -0.5 — the source clamps nothing, so a
negative elapsed time decreases progress instead of leaving it unchanged. -/
theorem tick_negative_elapsed_cex :
    (tick { isPlaying := true, progress := 0.5, uiProgress := 50, speed := 1 } (-3)).progress
      = -(1 / 2) ∧
    (tick { isPlaying := true, progress := 0.5, uiProgress := 50, speed := 1 } (-3)).progress
      ≠ (0.5 : ℚ) := by
  constructor
  · norm_num [tick, min_def]
  · norm_num [tick, min_def]

/-- C8 amended: a negative elapsed time is NOT clamped; while progress is
below 1 and speed is positive, a tick applies the (negative) increment
`elapsed * speed / 3` unchanged and strictly decreases progress. -/
theorem tick_negative_elapsed (s : AnimState) (e : ℚ) (he : e < 0)
    (hsp : 0 < s.speed) (h1 : s.progress < 1) :
    (tick s e).progress = s.progress + e * s.speed / 3 ∧
    (tick s e).progress < s.progress := by
  have hneg : e * s.speed / 3 < 0 :=
    div_neg_of_neg_of_pos (mul_neg_of_neg_of_pos he hsp) (by norm_num)
  have heq : (tick s e).progress = s.progress + e * s.speed / 3 := by
    unfold tick
    rw [if_pos h1]
    exact min_eq_left (by linarith)
  exact ⟨heq, by rw [heq]; linarith⟩

/-- C8 witness: the amended behaviour at the concrete state of the
counterexample. -/
theorem tick_negative_elapsed_witness :
    (tick { isPlaying := true, progress := 0.5, uiProgress := 50, speed := 1 } (-3)).progress
      = 0.5 + (-3) * 1 / 3 ∧
    (tick { isPlaying := true, progress := 0.5, uiProgress := 50, speed := 1 } (-3)).progress
      < 0.5 :=
  tick_negative_elapsed _ _ (by norm_num) (by norm_num) (by norm_num)

/-- C3 counterexample: `seek(150)` writes `progress = 1.5`, not the clamped
value 1 — the source's `handleSeek` divides by 100 without clamping, so an
out-of-range seek leaves progress outside [0,1]. -/
theorem seek_no_clamp_cex :
    (handleSeek initState 150).progress = 3 / 2 ∧
    ¬ (handleSeek initState 150).progress ≤ 1 ∧
    (handleSeek initState 150).progress ≠ clamp (150 / 100) 0 1 := by
  refine ⟨by norm_num [handleSeek], by norm_num [handleSeek], ?_⟩
  norm_num [handleSeek, clamp, min_def, max_def]

/-- C3 amended: `seek` sets `progress = argument / 100` exactly, with no
clamping, so progress stays in [0,1] only for arguments in [0,100] (and
`seek(150)` yields 1.5); `tick` with non-negative elapsed time and speed,
`reset`, and `playPause` all keep progress within [0,1]. -/
theorem progress_bounds (s : AnimState) (v e : ℚ)
    (h0 : 0 ≤ s.progress) (h1 : s.progress ≤ 1) (hsp : 0 ≤ s.speed) (he : 0 ≤ e) :
    (handleSeek s v).progress = v / 100 ∧
    (0 ≤ v → v ≤ 100 → 0 ≤ (handleSeek s v).progress ∧ (handleSeek s v).progress ≤ 1) ∧
    0 ≤ (tick s e).progress ∧ (tick s e).progress ≤ 1 ∧
    (handleReset s).progress = 0 ∧
    0 ≤ (handlePlayPause s).progress ∧ (handlePlayPause s).progress ≤ 1 ∧
    (handleSeek s 150).progress = 3 / 2 := by
  refine ⟨rfl, fun hv0 hv1 => ⟨?_, ?_⟩, tick_progress_nonneg s e he hsp h0,
    tick_progress_le_one s e, rfl, ?_, ?_, by norm_num [handleSeek]⟩
  · exact div_nonneg hv0 (by norm_num)
  · rw [show (handleSeek s v).progress = v / 100 from rfl, div_le_one (by norm_num)]
    exact hv1
  · unfold handlePlayPause
    split
    · exact le_refl 0
    · exact h0
  · unfold handlePlayPause
    split
    · exact zero_le_one
    · exact h1

/-- C3 witness: the amended bounds at a concrete mid-animation state with an
in-range seek argument and a positive elapsed time. -/
theorem progress_bounds_witness :
    (handleSeek { isPlaying := true, progress := 0.5, uiProgress := 50, speed := 1 } 40).progress = 40 / 100 ∧
    (0 ≤ (40 : ℚ) → (40 : ℚ) ≤ 100 →
      0 ≤ (handleSeek { isPlaying := true, progress := 0.5, uiProgress := 50, speed := 1 } 40).progress ∧
      (handleSeek { isPlaying := true, progress := 0.5, uiProgress := 50, speed := 1 } 40).progress ≤ 1) ∧
    0 ≤ (tick { isPlaying := true, progress := 0.5, uiProgress := 50, speed := 1 } 2).progress ∧
    (tick { isPlaying := true, progress := 0.5, uiProgress := 50, speed := 1 } 2).progress ≤ 1 ∧
    (handleReset { isPlaying := true, progress := 0.5, uiProgress := 50, speed := 1 }).progress = 0 ∧
    0 ≤ (handlePlayPause { isPlaying := true, progress := 0.5, uiProgress := 50, speed := 1 }).progress ∧
    (handlePlayPause { isPlaying := true, progress := 0.5, uiProgress := 50, speed := 1 }).progress ≤ 1 ∧
    (handleSeek { isPlaying := true, progress := 0.5, uiProgress := 50, speed := 1 } 150).progress = 3 / 2 :=
  progress_bounds _ 40 2 (by norm_num) (by norm_num) (by norm_num) (by norm_num)

/-- C2: from any progress in [0,1], with non-negative speed, a tick with
non-negative elapsed time never decreases progress, progress stays within
[0,1] over any sequence of such ticks, and once progress equals exactly 1 a
tick pins it to 1 and switches the playing flag off (the controller pauses
and further ticks are no-ops on progress). -/
theorem timeline_monotone (s : AnimState) (e : ℚ) (es : List ℚ)
    (hsp : 0 ≤ s.speed) (h0 : 0 ≤ s.progress) (h1 : s.progress ≤ 1)
    (he : 0 ≤ e) (hes : ∀ x ∈ es, 0 ≤ x) :
    s.progress ≤ (tick s e).progress ∧
    0 ≤ (tick s e).progress ∧ (tick s e).progress ≤ 1 ∧
    s.progress ≤ (runTicks s es).progress ∧
    0 ≤ (runTicks s es).progress ∧ (runTicks s es).progress ≤ 1 ∧
    (s.progress = 1 →
      (tick s e).progress = 1 ∧ (tick s e).isPlaying = false ∧
      (runTicks s es).progress = 1) := by
  have hseq := runTicks_bounds es s hes hsp h0 h1
  refine ⟨tick_progress_mono s e he hsp h1, tick_progress_nonneg s e he hsp h0,
    tick_progress_le_one s e, hseq.1, hseq.2.1, hseq.2.2, fun hone => ?_⟩
  have h1t := tick_at_one s e hone
  exact ⟨h1t.1, h1t.2, (runTicks_at_one es s hone).1⟩

/-- C2 witness: at a completed state (`progress = 1`), a concrete tick and a
concrete two-frame tick sequence leave progress at 1 and stop playing. -/
theorem timeline_monotone_witness :
    (1 : ℚ) ≤ (tick { isPlaying := true, progress := 1, uiProgress := 100, speed := 1 } 2).progress ∧
    0 ≤ (tick { isPlaying := true, progress := 1, uiProgress := 100, speed := 1 } 2).progress ∧
    (tick { isPlaying := true, progress := 1, uiProgress := 100, speed := 1 } 2).progress ≤ 1 ∧
    (1 : ℚ) ≤ (runTicks { isPlaying := true, progress := 1, uiProgress := 100, speed := 1 } [1, 3]).progress ∧
    0 ≤ (runTicks { isPlaying := true, progress := 1, uiProgress := 100, speed := 1 } [1, 3]).progress ∧
    (runTicks { isPlaying := true, progress := 1, uiProgress := 100, speed := 1 } [1, 3]).progress ≤ 1 ∧
    ((1 : ℚ) = 1 →
      (tick { isPlaying := true, progress := 1, uiProgress := 100, speed := 1 } 2).progress = 1 ∧
      (tick { isPlaying := true, progress := 1, uiProgress := 100, speed := 1 } 2).isPlaying = false ∧
      (runTicks { isPlaying := true, progress := 1, uiProgress := 100, speed := 1 } [1, 3]).progress = 1) :=
  timeline_monotone _ 2 [1, 3] (by norm_num) (by norm_num) (by norm_num) (by norm_num)
    (by intro x hx; simp only [List.mem_cons, List.not_mem_nil, or_false] at hx
        rcases hx with rfl | rfl <;> norm_num)

/-- C1 counterexample: the claim's second condition is backwards. For a part
with window `[0.55, 1.05]` (so `startOffset + span = 1.05 ≥ 1`), the clamped
local t at `globalProgress = 1` is only 0.9, so the interpolated position
misses the assembled position (z lands at 0.3168, not 0.3). -/
theorem interpolate_endpoint_cex :
    ¬ ∀ p : PartConfig, 0 < p.duration →
        ((p.delay = 0 → interpolate p 0 = p.explodedPos) ∧
         (1 ≤ p.delay + p.duration → interpolate p 1 = p.assembledPos)) := by
  intro h
  have h2 := (h overrunPart (by norm_num [overrunPart])).2 (by norm_num [overrunPart])
  have hz : (interpolate overrunPart 1).z = 198 / 625 := by
    norm_num [interpolate, overrunPart, lerpVectors, clamp, easeInOutCubic, min_def, max_def]
  rw [h2] at hz
  norm_num [overrunPart] at hz

/-- C1 amended: for every part with positive span, the interpolator at
`globalProgress = 0` returns the exploded position whenever
`startOffset = 0`, and at `globalProgress = 1` returns the assembled
position whenever `startOffset + span ≤ 1` (the window must END at or
before 1 for the clamped local t to reach 1; the claim's `≥` is the wrong
direction). -/
theorem interpolate_endpoints (p : PartConfig) (hd : 0 < p.duration) :
    (p.delay = 0 → interpolate p 0 = p.explodedPos) ∧
    (p.delay + p.duration ≤ 1 → interpolate p 1 = p.assembledPos) := by
  constructor
  · intro h0
    have hc : clamp ((0 - p.delay) / p.duration) 0 1 = 0 := by
      rw [h0]
      norm_num [clamp]
    have he : easeInOutCubic 0 = 0 := by norm_num [easeInOutCubic]
    unfold interpolate
    rw [hc, he]
    ext <;> simp [lerpVectors]
  · intro hsum
    have hraw : 1 ≤ (1 - p.delay) / p.duration := (one_le_div hd).2 (by linarith)
    have hc : clamp ((1 - p.delay) / p.duration) 0 1 = 1 := by
      unfold clamp
      rw [min_eq_right hraw, max_eq_right (by norm_num : (0 : ℚ) ≤ 1)]
    have he : easeInOutCubic 1 = 1 := by norm_num [easeInOutCubic]
    unfold interpolate
    rw [hc, he]
    ext <;> simp [lerpVectors]

/-- C1 witness: both endpoint pins at a part whose window `[0, 0.5]`
satisfies both (amended) side conditions. -/
theorem interpolate_endpoints_witness :
    interpolate coveredPart 0 = coveredPart.explodedPos ∧
    interpolate coveredPart 1 = coveredPart.assembledPos := by
  have h := interpolate_endpoints coveredPart (by norm_num [coveredPart])
  exact ⟨h.1 (by norm_num [coveredPart]), h.2 (by norm_num [coveredPart])⟩

/-- C5: with speed 1, `tick(1.5)` from progress 0 yields progress 0.5
exactly; a part with window `{startOffset 0.3, span 0.5}` at global
progress 0.5 has local t 0.4, eased t `4·0.4³ = 0.256`, and position
`exploded + 0.256 · (assembled − exploded)` componentwise. -/
theorem numeric_scenario :
    (tick { isPlaying := true, progress := 0, uiProgress := 0, speed := 1 } 1.5).progress = 0.5 ∧
    clamp ((0.5 - 0.3) / 0.5) 0 1 = 0.4 ∧
    easeInOutCubic 0.4 = 0.256 ∧
    ∀ ev av : Vec3,
      interpolate
          { id := "part", name := "part", color := "#000000", args := ⟨1, 1, 1⟩,
            assembledPos := av, explodedPos := ev,
            delay := 0.3, duration := 0.5 } 0.5
        = ⟨ev.x + 0.256 * (av.x - ev.x), ev.y + 0.256 * (av.y - ev.y),
           ev.z + 0.256 * (av.z - ev.z)⟩ := by
  refine ⟨by norm_num [tick, min_def], by norm_num [clamp, min_def, max_def],
    by norm_num [easeInOutCubic], ?_⟩
  intro ev av
  have he : easeInOutCubic (clamp ((0.5 - 0.3) / 0.5) 0 1) = 0.256 := by
    norm_num [clamp, min_def, max_def, easeInOutCubic]
  show lerpVectors ev av (easeInOutCubic (clamp ((0.5 - 0.3) / 0.5) 0 1)) = _
  rw [he]
  unfold lerpVectors
  ext <;> ring

/-- C6: for every part with positive span and `g1 ≤ g2` in [0,1], each axis
of the position at `g2` lies between the position at `g1` and the assembled
coordinate, and every interpolated position stays inside the closed per-axis
interval spanned by the exploded and assembled coordinates. -/
theorem interpolate_monotone_no_overshoot (p : PartConfig) (hd : 0 < p.duration)
    (g1 g2 : ℚ) (hg0 : 0 ≤ g1) (hg12 : g1 ≤ g2) (hg2 : g2 ≤ 1) :
    (between (interpolate p g1).x p.assembledPos.x (interpolate p g2).x ∧
     between (interpolate p g1).y p.assembledPos.y (interpolate p g2).y ∧
     between (interpolate p g1).z p.assembledPos.z (interpolate p g2).z) ∧
    (between p.explodedPos.x p.assembledPos.x (interpolate p g1).x ∧
     between p.explodedPos.y p.assembledPos.y (interpolate p g1).y ∧
     between p.explodedPos.z p.assembledPos.z (interpolate p g1).z) := by
  have hdivmono : (g1 - p.delay) / p.duration ≤ (g2 - p.delay) / p.duration := by
    gcongr
  have hcm := clamp_mono hdivmono
  have ht12 : easeInOutCubic (clamp ((g1 - p.delay) / p.duration) 0 1)
      ≤ easeInOutCubic (clamp ((g2 - p.delay) / p.duration) 0 1) :=
    easeInOutCubic_mono (clamp_nonneg _) hcm (clamp_le_one _)
  have ht2 : easeInOutCubic (clamp ((g2 - p.delay) / p.duration) 0 1) ≤ 1 :=
    easeInOutCubic_le_one (clamp_le_one _)
  have ht10 : 0 ≤ easeInOutCubic (clamp ((g1 - p.delay) / p.duration) 0 1) :=
    easeInOutCubic_nonneg (clamp_nonneg _)
  have ht11 : easeInOutCubic (clamp ((g1 - p.delay) / p.duration) 0 1) ≤ 1 :=
    easeInOutCubic_le_one (clamp_le_one _)
  exact ⟨⟨lerp_mono_between ht12 ht2, lerp_mono_between ht12 ht2, lerp_mono_between ht12 ht2⟩,
    ⟨lerp_within ht10 ht11, lerp_within ht10 ht11, lerp_within ht10 ht11⟩⟩

/-- C6 witness: per-axis monotonicity and no-overshoot at a concrete part
and the concrete progress pair `0.25 ≤ 0.75`. -/
theorem interpolate_monotone_no_overshoot_witness :
    (between (interpolate coveredPart 0.25).x coveredPart.assembledPos.x
        (interpolate coveredPart 0.75).x ∧
     between (interpolate coveredPart 0.25).y coveredPart.assembledPos.y
        (interpolate coveredPart 0.75).y ∧
     between (interpolate coveredPart 0.25).z coveredPart.assembledPos.z
        (interpolate coveredPart 0.75).z) ∧
    (between coveredPart.explodedPos.x coveredPart.assembledPos.x
        (interpolate coveredPart 0.25).x ∧
     between coveredPart.explodedPos.y coveredPart.assembledPos.y
        (interpolate coveredPart 0.25).y ∧
     between coveredPart.explodedPos.z coveredPart.assembledPos.z
        (interpolate coveredPart 0.25).z) :=
  interpolate_monotone_no_overshoot coveredPart (by norm_num [coveredPart]) 0.25 0.75
    (by norm_num) (by norm_num) (by norm_num)

/-- With an animation window overrunning the timeline end and motion along
z from a higher exploded z down to the assembled z, the interpolated z stays
strictly above the assembled z for every progress value at most 1. -/
lemma interpolate_z_above (p : PartConfig) (hd : 0 < p.duration)
    (hover : 1 < p.delay + p.duration) (hza : p.assembledPos.z < p.explodedPos.z)
    {g : ℚ} (hg : g ≤ 1) :
    p.assembledPos.z < (interpolate p g).z := by
  have hraw : (g - p.delay) / p.duration < 1 := by
    rw [div_lt_one hd]
    linarith
  have ht1 : clamp ((g - p.delay) / p.duration) 0 1 < 1 :=
    max_lt (by norm_num) (lt_of_le_of_lt (min_le_left _ _) hraw)
  have he1 : easeInOutCubic (clamp ((g - p.delay) / p.duration) 0 1) < 1 :=
    easeInOutCubic_lt_one (clamp_nonneg _) ht1
  show p.assembledPos.z < p.explodedPos.z + (p.assembledPos.z - p.explodedPos.z)
      * easeInOutCubic (clamp ((g - p.delay) / p.duration) 0 1)
  nlinarith [mul_pos (sub_pos.2 hza) (sub_pos.2 he1)]

/-- C10: the generated layout's glass pane has window `startOffset 0.55`,
`span 0.5`, so `startOffset + span = 1.05 > 1`; its clamped local t at
global progress 1 is 0.9 < 1, its interpolated position at progress 1 is
not its assembled position, and no progress value in [0,1] brings it to its
assembled position. -/
theorem glass_never_assembles :
    (partById "glass").isSome = true ∧
    (getPart "glass").delay = 0.55 ∧
    (getPart "glass").duration = 0.5 ∧
    1 < (getPart "glass").delay + (getPart "glass").duration ∧
    clamp ((1 - (getPart "glass").delay) / (getPart "glass").duration) 0 1 = 0.9 ∧
    interpolate (getPart "glass") 1 ≠ (getPart "glass").assembledPos ∧
    ∀ g : ℚ, 0 ≤ g → g ≤ 1 →
      interpolate (getPart "glass") g ≠ (getPart "glass").assembledPos := by
  have hg : getPart "glass" =
      { id := "glass", name := "Glass", color := "#a5f3fc",
        args := ⟨winW - 2 * winFrameThick + 0.05, winH - 2 * winFrameThick + 0.05, 0.02⟩,
        assembledPos := ⟨0, 0, winZ⟩, explodedPos := ⟨0, 0, ExplodeZ * 0.9⟩,
        delay := 0.55, duration := 0.5,
        opacity := some 0.3, metalness := some 0.9, roughness := some 0.05 } := rfl
  have key : ∀ g : ℚ, g ≤ 1 →
      interpolate (getPart "glass") g ≠ (getPart "glass").assembledPos := by
    intro g hgle hEq
    have hz := interpolate_z_above (getPart "glass") (by rw [hg]; norm_num)
      (by rw [hg]; norm_num) (by rw [hg]; norm_num [winZ, ExplodeZ]) hgle
    rw [hEq] at hz
    exact lt_irrefl _ hz
  refine ⟨rfl, by rw [hg], by rw [hg], by rw [hg]; norm_num,
    by rw [hg]; norm_num [clamp, min_def, max_def], key 1 le_rfl, fun g _ hgle => key g hgle⟩

/-- C4: each yellow insulation panel of the generated layout is flush-fit
between its two adjacent steel corner beams at progress 1: its extent along
the shared axis equals the span between the beams' inner faces, its
boundary faces coincide exactly with those inner faces (zero gap, zero
overlap), and in particular the side panels have height
`innerH = BoxH - 2·BeamSize` with their inner vertical face at
`x = ±(BoxW/2 - BeamSize)`, coinciding with the beams' inner faces. -/
theorem flush_fit_yellow_panels :
    ((partById "beam-tl").isSome = true ∧ (partById "beam-tr").isSome = true ∧
     (partById "beam-bl").isSome = true ∧ (partById "beam-br").isSome = true ∧
     (partById "yellow-top").isSome = true ∧ (partById "yellow-bot").isSome = true ∧
     (partById "yellow-left").isSome = true ∧ (partById "yellow-right").isSome = true) ∧
    ((getPart "yellow-top").args.x
        = ((interpolate (getPart "beam-tr") 1).x - (getPart "beam-tr").args.x / 2)
          - ((interpolate (getPart "beam-tl") 1).x + (getPart "beam-tl").args.x / 2) ∧
     (interpolate (getPart "yellow-top") 1).x - (getPart "yellow-top").args.x / 2
        = (interpolate (getPart "beam-tl") 1).x + (getPart "beam-tl").args.x / 2 ∧
     (interpolate (getPart "yellow-top") 1).x + (getPart "yellow-top").args.x / 2
        = (interpolate (getPart "beam-tr") 1).x - (getPart "beam-tr").args.x / 2) ∧
    ((getPart "yellow-bot").args.x
        = ((interpolate (getPart "beam-br") 1).x - (getPart "beam-br").args.x / 2)
          - ((interpolate (getPart "beam-bl") 1).x + (getPart "beam-bl").args.x / 2) ∧
     (interpolate (getPart "yellow-bot") 1).x - (getPart "yellow-bot").args.x / 2
        = (interpolate (getPart "beam-bl") 1).x + (getPart "beam-bl").args.x / 2 ∧
     (interpolate (getPart "yellow-bot") 1).x + (getPart "yellow-bot").args.x / 2
        = (interpolate (getPart "beam-br") 1).x - (getPart "beam-br").args.x / 2) ∧
    ((getPart "yellow-left").args.y = BoxH - 2 * BeamSize ∧
     (getPart "yellow-left").args.y
        = ((interpolate (getPart "beam-tl") 1).y - (getPart "beam-tl").args.y / 2)
          - ((interpolate (getPart "beam-bl") 1).y + (getPart "beam-bl").args.y / 2) ∧
     (interpolate (getPart "yellow-left") 1).y + (getPart "yellow-left").args.y / 2
        = (interpolate (getPart "beam-tl") 1).y - (getPart "beam-tl").args.y / 2 ∧
     (interpolate (getPart "yellow-left") 1).y - (getPart "yellow-left").args.y / 2
        = (interpolate (getPart "beam-bl") 1).y + (getPart "beam-bl").args.y / 2 ∧
     (interpolate (getPart "yellow-left") 1).x + (getPart "yellow-left").args.x / 2
        = -(BoxW / 2 - BeamSize) ∧
     (interpolate (getPart "yellow-left") 1).x + (getPart "yellow-left").args.x / 2
        = (interpolate (getPart "beam-tl") 1).x + (getPart "beam-tl").args.x / 2) ∧
    ((getPart "yellow-right").args.y = BoxH - 2 * BeamSize ∧
     (getPart "yellow-right").args.y
        = ((interpolate (getPart "beam-tr") 1).y - (getPart "beam-tr").args.y / 2)
          - ((interpolate (getPart "beam-br") 1).y + (getPart "beam-br").args.y / 2) ∧
     (interpolate (getPart "yellow-right") 1).y + (getPart "yellow-right").args.y / 2
        = (interpolate (getPart "beam-tr") 1).y - (getPart "beam-tr").args.y / 2 ∧
     (interpolate (getPart "yellow-right") 1).y - (getPart "yellow-right").args.y / 2
        = (interpolate (getPart "beam-br") 1).y + (getPart "beam-br").args.y / 2 ∧
     (interpolate (getPart "yellow-right") 1).x - (getPart "yellow-right").args.x / 2
        = BoxW / 2 - BeamSize ∧
     (interpolate (getPart "yellow-right") 1).x - (getPart "yellow-right").args.x / 2
        = (interpolate (getPart "beam-tr") 1).x - (getPart "beam-tr").args.x / 2) := by
  have htl : getPart "beam-tl" =
      { id := "beam-tl", name := "Steel Beam", color := "#71717a",
        args := ⟨BeamSize, BeamSize, beamLen⟩,
        assembledPos := ⟨beamX_Left, beamY_Top, beamZ⟩,
        explodedPos := ⟨beamX_Left, beamY_Top, ExplodeZ * 0.2⟩,
        delay := 0.1, duration := 0.4 } := rfl
  have htr : getPart "beam-tr" =
      { id := "beam-tr", name := "Steel Beam", color := "#71717a",
        args := ⟨BeamSize, BeamSize, beamLen⟩,
        assembledPos := ⟨beamX_Right, beamY_Top, beamZ⟩,
        explodedPos := ⟨beamX_Right, beamY_Top, ExplodeZ * 0.2⟩,
        delay := 0.1, duration := 0.4 } := rfl
  have hbl : getPart "beam-bl" =
      { id := "beam-bl", name := "Steel Beam", color := "#71717a",
        args := ⟨BeamSize, BeamSize, beamLen⟩,
        assembledPos := ⟨beamX_Left, beamY_Bot, beamZ⟩,
        explodedPos := ⟨beamX_Left, beamY_Bot, ExplodeZ * 0.2⟩,
        delay := 0.1, duration := 0.4 } := rfl
  have hbr : getPart "beam-br" =
      { id := "beam-br", name := "Steel Beam", color := "#71717a",
        args := ⟨BeamSize, BeamSize, beamLen⟩,
        assembledPos := ⟨beamX_Right, beamY_Bot, beamZ⟩,
        explodedPos := ⟨beamX_Right, beamY_Bot, ExplodeZ * 0.2⟩,
        delay := 0.1, duration := 0.4 } := rfl
  have hyt : getPart "yellow-top" =
      { id := "yellow-top", name := "Insulation Top", color := "#fde047",
        args := ⟨innerW, 0.05, Depth⟩,
        assembledPos := ⟨0, beamY_Top - BeamSize / 2 + 0.025, beamZ⟩,
        explodedPos := ⟨0, beamY_Top + ExplodeXY / 2, ExplodeZ * 0.5⟩,
        delay := 0.3, duration := 0.5 } := rfl
  have hyb : getPart "yellow-bot" =
      { id := "yellow-bot", name := "Insulation Sill", color := "#fde047",
        args := ⟨innerW, BeamSize, Depth⟩,
        assembledPos := ⟨0, beamY_Bot, beamZ⟩,
        explodedPos := ⟨0, beamY_Bot - ExplodeXY / 2, ExplodeZ * 0.5⟩,
        delay := 0.3, duration := 0.5 } := rfl
  have hyl : getPart "yellow-left" =
      { id := "yellow-left", name := "Insulation Left", color := "#fde047",
        args := ⟨0.05, innerH, Depth⟩,
        assembledPos := ⟨beamX_Left + BeamSize / 2 - 0.025, 0, beamZ⟩,
        explodedPos := ⟨beamX_Left - ExplodeXY / 2, 0, ExplodeZ * 0.5⟩,
        delay := 0.35, duration := 0.5 } := rfl
  have hyr : getPart "yellow-right" =
      { id := "yellow-right", name := "Insulation Right", color := "#fde047",
        args := ⟨0.05, innerH, Depth⟩,
        assembledPos := ⟨beamX_Right - BeamSize / 2 + 0.025, 0, beamZ⟩,
        explodedPos := ⟨beamX_Right + ExplodeXY / 2, 0, ExplodeZ * 0.5⟩,
        delay := 0.35, duration := 0.5 } := rfl
  rw [htl, htr, hbl, hbr, hyt, hyb, hyl, hyr]
  refine ⟨⟨rfl, rfl, rfl, rfl, rfl, rfl, rfl, rfl⟩, ?_, ?_, ?_, ?_⟩ <;>
    norm_num [interpolate, lerpVectors, clamp, easeInOutCubic, min_def, max_def,
      BoxW, BoxH, Depth, BeamSize, ExplodeZ, ExplodeXY, beamZ, beamLen,
      beamY_Top, beamY_Bot, beamX_Left, beamX_Right, innerW, innerH]
